import Mathlib

/-!
Verification development for the pricing-resolution and caching core of the
altares-mayand repository (a made-to-order altar configurator).

The embedding covers:
* the cache-aside helper `getCached` from `src/lib/redis/client.ts` (the file
  contains two concatenated variants; both are embedded, as `getCached` for the
  first variant, lines 11-43, and `getCachedB` for the second, lines 89-112);
* the cache-key and TTL constants and the price-calculation hash from
  `src/lib/redis/cache-keys.ts`;
* the pricing-rule, discount-tier and order data model from the SQL schema in
  `src/supabase/migrations/20250121000000_initial_schema.sql` together with the
  seed rows of `20250121000002_seed_data.sql`;
* the price resolver, discount engine and quote calculator, which have no
  implementation under `src/` and are therefore modelled from the spec.

Decimal money amounts (`DECIMAL(10,2)`) are represented in centavos (scaled by
100, as `Nat` where the schema forces them non-negative, `Int` for signed
totals); `DECIMAL(5,2)` percentages are represented in basis points (scaled by
100, so 10.00 % = 1000). Dimensions are likewise scaled by 100.
-/

namespace Altares

/-- Outcome of one run of the cache-aside helper: the value (or error)
returned to the caller, how many times the underlying fetcher was invoked,
and whether a cache write succeeded. -/
structure CacheRun (E V : Type) where
  result : Except E V
  fetchCalls : Nat
  wroteCache : Bool

/-- Embedding of `getCached` from `src/lib/redis/client.ts`, first variant
(lines 11-43).  `getRes` is the outcome of the single `redis.get` call
(`Except.error` = the call threw; `Except.ok none` = it returned JS `null`;
`Except.ok (some v)` = it returned a value).  `setRes v` is the outcome of a
`redis.setex` call storing `v`.  `fetch n` is the outcome of the n-th
invocation of the fetcher (0-indexed); the source can invoke the fetcher a
second time from the outer `catch` block.

Source control flow: the outer `try` wraps the `get`, the first `fetcher()`
call and an inner `try` around `setex` (whose error is absorbed); the outer
`catch` calls `return await fetcher()`. -/
def getCached {E V : Type} (getRes : Except Unit (Option V))
    (setRes : V → Except Unit Unit) (fetch : Nat → Except E V) : CacheRun E V :=
  match getRes with
  | .error _ =>
      { result := fetch 0, fetchCalls := 1, wroteCache := false }
  | .ok (some v) =>
      { result := .ok v, fetchCalls := 0, wroteCache := false }
  | .ok none =>
      match fetch 0 with
      | .error _ =>
          { result := fetch 1, fetchCalls := 2, wroteCache := false }
      | .ok d =>
          match setRes d with
          | .ok _ => { result := .ok d, fetchCalls := 1, wroteCache := true }
          | .error _ => { result := .ok d, fetchCalls := 1, wroteCache := false }

/-- Embedding of `getCached` from `src/lib/redis/client.ts`, second variant
(lines 89-112).  Identical to the first variant except that the `setex` call
is not wrapped in an inner `try`: a `setex` failure falls into the outer
`catch`, which re-invokes the fetcher and returns that second outcome. -/
def getCachedB {E V : Type} (getRes : Except Unit (Option V))
    (setRes : V → Except Unit Unit) (fetch : Nat → Except E V) : CacheRun E V :=
  match getRes with
  | .error _ =>
      { result := fetch 0, fetchCalls := 1, wroteCache := false }
  | .ok (some v) =>
      { result := .ok v, fetchCalls := 0, wroteCache := false }
  | .ok none =>
      match fetch 0 with
      | .error _ =>
          { result := fetch 1, fetchCalls := 2, wroteCache := false }
      | .ok d =>
          match setRes d with
          | .ok _ => { result := .ok d, fetchCalls := 1, wroteCache := true }
          | .error _ => { result := fetch 1, fetchCalls := 2, wroteCache := false }

/-- Deserialized view of a Redis store, as seen through `redis.get` of the
Upstash client used by `src/lib/redis/client.ts`: a key can be absent
(`none`), hold a stored JSON `null` (`some none`), or hold a value
(`some (some v)`).  `redis.get` returns JS `null` both for an absent key and
for a stored `null`. -/
def redisGetStored {V : Type} (store : String → Option (Option V))
    (k : String) : Option V :=
  match store k with
  | none => none
  | some sv => sv

/-- Time-To-Live constants from `src/lib/redis/cache-keys.ts` (`CACHE_TTL`),
values in seconds. -/
structure CacheTTLConfig where
  LONG : Nat
  MEDIUM : Nat
  SHORT : Nat
  VERY_SHORT : Nat
  CATALOG : Nat
  CONFIG : Nat
  PRICING : Nat
  CALCULATION : Nat
  EXTRAS : Nat
  DISCOUNTS : Nat
deriving DecidableEq, Repr

/-- Values of `CACHE_TTL` in `src/lib/redis/cache-keys.ts`, lines 42-72. -/
def CACHE_TTL : CacheTTLConfig :=
  { LONG := 3600, MEDIUM := 1800, SHORT := 300, VERY_SHORT := 60,
    CATALOG := 3600, CONFIG := 3600, PRICING := 1800, CALCULATION := 600,
    EXTRAS := 3600, DISCOUNTS := 3600 }

/-- Cache key constants and generators from `CACHE_KEYS` in
`src/lib/redis/cache-keys.ts`, lines 7-39. -/
def KEY_ALTARES_ALL : String := "altares:all"

/-- Key generator `CACHE_KEYS.ALTARES_BY_TYPE`. -/
def KEY_ALTARES_BY_TYPE (tipo : String) : String := "altares:tipo:" ++ tipo

/-- Key constant `CACHE_KEYS.CONFIGURACIONES_ALL`. -/
def KEY_CONFIGURACIONES_ALL : String := "configuraciones:all"

/-- Key constant `CACHE_KEYS.REGLAS_PRECIO` (the pricing-rules list key). -/
def KEY_REGLAS_PRECIO : String := "reglas_precio:all"

/-- Key generator `CACHE_KEYS.PRECIO_CALCULATION` (the quote-result keys). -/
def KEY_PRECIO_CALCULATION (hash : String) : String := "precio:calc:" ++ hash

/-- Key constant `CACHE_KEYS.ITEMS_EXTRA`. -/
def KEY_ITEMS_EXTRA : String := "items_extra:all"

/-- Key generator `CACHE_KEYS.ITEMS_EXTRA_BY_TYPE`. -/
def KEY_ITEMS_EXTRA_BY_TYPE (tipo : String) : String := "items_extra:tipo:" ++ tipo

/-- Key constant `CACHE_KEYS.REGLAS_DESCUENTO` (the discount-rules key). -/
def KEY_REGLAS_DESCUENTO : String := "reglas_descuento:all"

/-- Bulk-invalidation pattern `CACHE_KEYS.PATTERNS.ALL_ALTARES`. -/
def PATTERN_ALL_ALTARES : String := "altares:*"

/-- Bulk-invalidation pattern `CACHE_KEYS.PATTERNS.ALL_CONFIGURACIONES`. -/
def PATTERN_ALL_CONFIGURACIONES : String := "configuraciones:*"

/-- Bulk-invalidation pattern `CACHE_KEYS.PATTERNS.ALL_PRICING`. -/
def PATTERN_ALL_PRICING : String := "precio:*"

/-- Bulk-invalidation pattern `CACHE_KEYS.PATTERNS.ALL_EXTRAS`. -/
def PATTERN_ALL_EXTRAS : String := "items_extra:*"

/-- Redis glob matching restricted to the pattern shapes that occur in
`CACHE_KEYS.PATTERNS` (a literal prefix followed by a single trailing `*`):
`invalidateCache` in `src/lib/redis/client.ts` passes such a pattern to
`redis.keys` and deletes every matching key. -/
def patternMatches (pat k : String) : Bool :=
  if pat.data.getLast? = some '*' then
    pat.data.dropLast.isPrefixOf k.data
  else
    decide (pat = k)

/-- One selected extra item of a price-calculation request: the member of the
`extras` array taken by `generatePriceCalcHash` in
`src/lib/redis/cache-keys.ts` (`{ itemId: string; cantidad: number }`). -/
structure ExtraSel where
  itemId : String
  cantidad : Nat
deriving DecidableEq, Repr

/-- Comparator used by `generatePriceCalcHash`: the source sorts extras with
`(a, b) => a.itemId.localeCompare(b.itemId)`, an ordering on the `itemId`
strings only (embedded as the lexicographic order on the character sequence;
which total order is used does not affect any claim below). -/
def extraLe (a b : ExtraSel) : Prop := a.itemId.data ≤ b.itemId.data

instance : DecidableRel extraLe := fun a b =>
  inferInstanceAs (Decidable (a.itemId.data ≤ b.itemId.data))

instance : IsTotal ExtraSel extraLe :=
  ⟨fun a b => le_total a.itemId.data b.itemId.data⟩

instance : IsTrans ExtraSel extraLe := ⟨fun _ _ _ h₁ h₂ => le_trans h₁ h₂⟩

/-- Argument record of `generatePriceCalcHash` in
`src/lib/redis/cache-keys.ts`, lines 75-81. -/
structure PriceCalcParams where
  grosorId : String
  alturaId : String
  anchuraId : String
  pintado : Bool
  extras : Option (List ExtraSel)
deriving DecidableEq, Repr

/-- Embedding of `generatePriceCalcHash` from `src/lib/redis/cache-keys.ts`,
lines 75-90: the extras are sorted by `itemId` (JS `Array.prototype.sort` is
stable, embedded as a stable insertion sort), rendered as `itemId:cantidad`
and joined with commas; the hash is
`grosorId-alturaId-anchuraId-(pintado ? 1 : 0)-extrasStr`. -/
def generatePriceCalcHash (p : PriceCalcParams) : String :=
  let extrasStr : String :=
    match p.extras with
    | some ex =>
        String.intercalate ","
          ((List.insertionSort extraLe ex).map
            (fun e => e.itemId ++ ":" ++ toString e.cantidad))
    | none => ""
  p.grosorId ++ "-" ++ p.alturaId ++ "-" ++ p.anchuraId ++ "-" ++
    (if p.pintado then "1" else "0") ++ "-" ++ extrasStr

/-- Pricing rule, mirroring the `reglas_precio` table of
`src/supabase/migrations/20250121000000_initial_schema.sql` (lines 60-77):
a priced band over height and width for one thickness.  Dimensions are scaled
by 100 (`DECIMAL(10,2)`), prices are in centavos. -/
structure PricingRule where
  id : String
  grosorId : String
  alturaMin : Int
  alturaMax : Int
  anchuraMin : Int
  anchuraMax : Int
  precioBase : Nat
  precioPintado : Nat
  activo : Bool
deriving DecidableEq, Repr

/-- Band area `(heightMax-heightMin) × (widthMax-widthMin)` of a pricing
rule, the quantity used by the spec's narrowest-band tie-break. -/
def bandArea (r : PricingRule) : Int :=
  (r.alturaMax - r.alturaMin) * (r.anchuraMax - r.anchuraMin)

/-- Whether a pricing rule applies to a request point: the rule is active,
its thickness reference equals the requested thickness, and the inclusive
height and width bands contain the requested dimensions (spec section 4.3). -/
def ruleMatches (r : PricingRule) (g : String) (hgt wid : Int) : Bool :=
  r.activo && (r.grosorId == g) && decide (r.alturaMin ≤ hgt) &&
    decide (hgt ≤ r.alturaMax) && decide (r.anchuraMin ≤ wid) &&
    decide (wid ≤ r.anchuraMax)

/-- Sort key of the tie-break of spec section 4.3: band area first, then the
rule identifier (as its character sequence), compared lexicographically. -/
def ruleKey (r : PricingRule) : Int ×ₗ List Char :=
  toLex (bandArea r, r.id.data)

/-- Modelled from the spec: the Price Resolver `resolve` of section 4.3 has
no implementation under `src/` (only the schema and seed rows exist); this
definition follows the spec's words.  Filter active rules matching the
requested thickness whose bands contain the point; return `none` when no rule
matches (the `NoRuleMatchedError` outcome); otherwise select deterministically
the rule with the smallest band area, breaking remaining ties by the
lexicographically smallest identifier. -/
def resolve (rules : List PricingRule) (g : String) (hgt wid : Int) :
    Option PricingRule :=
  (rules.filter (fun r => ruleMatches r g hgt wid)).argmin ruleKey

/-- Discount tier, mirroring the `reglas_descuento` table of the initial
schema (lines 135-147): a quantity threshold mapped to a percentage.  The
`DECIMAL(5,2)` percentage is stored in basis points (10.00 % = 1000). -/
structure DiscountTier where
  id : String
  cantidadMinima : Nat
  porcentaje : Nat
  activo : Bool
deriving DecidableEq, Repr

/-- Round-half-up division, the rounding to the currency's minor unit used by
the spec's discount formula (the numerator is already scaled so that the
quotient is in centavos). -/
def roundHalfUp (num den : Nat) : Nat := (2 * num + den) / (2 * den)

/-- Modelled from the spec: the Discount Engine `applyDiscount` of section
4.4 has no implementation under `src/` (only the `reglas_descuento` schema,
its seed rows and the `BUSINESS_CONFIG.discounts` constant exist); this
definition follows the spec's words.  Among active tiers with
`minQuantity ≤ itemCount` pick the one with the largest `minQuantity`;
`discountAmount = round(subtotal × percentage / 100)` to the currency
precision (here: centavos, with the percentage in basis points); if no tier
qualifies the discount is 0 and the tier is `none`. -/
def applyDiscount (tiers : List DiscountTier) (itemCount subtotal : Nat) :
    Option DiscountTier × Nat :=
  match (tiers.filter
      (fun t => t.activo && decide (t.cantidadMinima ≤ itemCount))).argmax
      (fun t => t.cantidadMinima) with
  | none => (none, 0)
  | some t => (some t, roundHalfUp (subtotal * t.porcentaje) 10000)

/-- Computed quote, mirroring the `Quote` structure of spec section 3.
Money in centavos; `total` is signed so that the non-negativity invariant is
a real statement. -/
structure Quote where
  unitPrice : Nat
  extrasTotal : Nat
  lineSubtotal : Nat
  discountAmount : Nat
  total : Int
  matchedRuleId : Option String
deriving DecidableEq, Repr

/-- Unit price of a matched rule per spec section 4.3: the painted price when
the paint flag is set, the base price otherwise. -/
def quoteUnitPrice (r : PricingRule) (painted : Bool) : Nat :=
  if painted then r.precioPintado else r.precioBase

/-- Sum of the selected extras (price × selected quantity, in centavos) of a
quote request, the `extrasTotal` of spec section 4.5. -/
def quoteExtrasTotal (extras : List (Nat × Nat)) : Nat :=
  (extras.map (fun e => e.1 * e.2)).sum

/-- The quote assembled for a matched rule, per spec sections 3 and 4.5:
`lineSubtotal = (unitPrice + extrasTotal) × quantity`, the discount comes
from the Discount Engine at the order-level item count, and
`total = lineSubtotal − discountAmount`. -/
def quoteOf (r : PricingRule) (tiers : List DiscountTier) (painted : Bool)
    (quantity : Nat) (extras : List (Nat × Nat)) (orderItemCount : Nat) :
    Quote :=
  { unitPrice := quoteUnitPrice r painted
  , extrasTotal := quoteExtrasTotal extras
  , lineSubtotal := (quoteUnitPrice r painted + quoteExtrasTotal extras) * quantity
  , discountAmount := (applyDiscount tiers orderItemCount
      ((quoteUnitPrice r painted + quoteExtrasTotal extras) * quantity)).2
  , total := (((quoteUnitPrice r painted + quoteExtrasTotal extras) * quantity : Nat) : Int)
      - ((applyDiscount tiers orderItemCount
          ((quoteUnitPrice r painted + quoteExtrasTotal extras) * quantity)).2 : Int)
  , matchedRuleId := some r.id }

/-- Modelled from the spec: the Quote Calculator `computeQuote` of section
4.5 has no implementation under `src/`; this definition follows the spec's
words.  Validate `quantity ≥ 1`; resolve the matched rule via the Price
Resolver, propagating a no-rule-matched outcome as `none`; and assemble the
quote via `quoteOf`. -/
def computeQuote (rules : List PricingRule) (tiers : List DiscountTier)
    (g : String) (hgt wid : Int) (painted : Bool) (quantity : Nat)
    (extras : List (Nat × Nat)) (orderItemCount : Nat) : Option Quote :=
  if quantity < 1 then none
  else
    match resolve rules g hgt wid with
    | none => none
    | some r => some (quoteOf r tiers painted quantity extras orderItemCount)

/-- Persisted order row, mirroring the pricing columns of the `pedidos`
table of the initial schema (lines 150-184); amounts in centavos, signed so
that the CHECK constraints are real statements. -/
structure Pedido where
  subtotal : Int
  descuento : Int
  total : Int
deriving DecidableEq, Repr

/-- The CHECK constraints `check_positive_amounts` and
`check_total_calculation` of the `pedidos` table (initial schema, lines
182-183): `subtotal >= 0 AND total >= 0 AND descuento >= 0` and
`total = subtotal - descuento`.  A row can be persisted only when this
predicate holds. -/
def pedidoChecks (p : Pedido) : Bool :=
  decide (0 ≤ p.subtotal) && decide (0 ≤ p.total) && decide (0 ≤ p.descuento)
    && decide (p.total = p.subtotal - p.descuento)

/-- Seed pricing rule for 3 mm thickness, small sizes (heights 30-50 cm,
widths 20-35 cm, base 250.00, painted 350.00), from
`src/supabase/migrations/20250121000002_seed_data.sql` lines 58-59. -/
def seedRule3mmSmall : PricingRule :=
  { id := "r3-small", grosorId := "g3", alturaMin := 3000, alturaMax := 5000,
    anchuraMin := 2000, anchuraMax := 3500, precioBase := 25000,
    precioPintado := 35000, activo := true }

/-- Seed pricing rule for 3 mm thickness, medium sizes (heights 30-50 cm,
widths 40-50 cm, base 300.00, painted 420.00), seed data lines 62-63. -/
def seedRule3mmMedium : PricingRule :=
  { id := "r3-medium", grosorId := "g3", alturaMin := 3000, alturaMax := 5000,
    anchuraMin := 4000, anchuraMax := 5000, precioBase := 30000,
    precioPintado := 42000, activo := true }

/-- Seed pricing rule for 3 mm thickness, large sizes (heights 60-80 cm,
widths 20-50 cm, base 400.00, painted 560.00), seed data lines 66-67. -/
def seedRule3mmLarge : PricingRule :=
  { id := "r3-large", grosorId := "g3", alturaMin := 6000, alturaMax := 8000,
    anchuraMin := 2000, anchuraMax := 5000, precioBase := 40000,
    precioPintado := 56000, activo := true }

/-- The three 3 mm seed pricing rules as a rule set. -/
def seedRules3mm : List PricingRule :=
  [seedRule3mmSmall, seedRule3mmMedium, seedRule3mmLarge]

/-- Seed discount tier of 10 % from 5 units, from the seed data line 105
(also mirrored by `BUSINESS_CONFIG.discounts.bulkOrder` in
`src/lib/constants/business-config.ts`). -/
def seedTier5 : DiscountTier :=
  { id := "d5", cantidadMinima := 5, porcentaje := 1000, activo := true }

/-- Seed discount tier of 15 % from 10 units, seed data line 106. -/
def seedTier10 : DiscountTier :=
  { id := "d10", cantidadMinima := 10, porcentaje := 1500, activo := true }

/-- The seed discount tiers as a tier set. -/
def seedTiers : List DiscountTier := [seedTier5, seedTier10]

/-- An artificial active wide rule overlapping `seedRule3mmSmall` (the data
model has no uniqueness constraint across bands, so overlaps are legal),
used to exercise the narrowest-band tie-break. -/
def overlapRuleWide : PricingRule :=
  { id := "r0-wide", grosorId := "g3", alturaMin := 3000, alturaMax := 8000,
    anchuraMin := 2000, anchuraMax := 5000, precioBase := 50000,
    precioPintado := 70000, activo := true }

/-- Concrete price-calculation request with two distinct extras, listed in
one order. -/
def paramsExtrasBA : PriceCalcParams :=
  { grosorId := "g3", alturaId := "a40", anchuraId := "w25", pintado := true,
    extras := some [⟨"vela", 2⟩, ⟨"cruz", 1⟩] }

/-- The same request as `paramsExtrasBA` with the extras listed in the other
order. -/
def paramsExtrasAB : PriceCalcParams :=
  { grosorId := "g3", alturaId := "a40", anchuraId := "w25", pintado := true,
    extras := some [⟨"cruz", 1⟩, ⟨"vela", 2⟩] }

/-- The quote of spec scenario 1 (3 mm, height 40 cm, width 25 cm, unpainted,
quantity 1, no extras): unit price 250.00, total 250.00. -/
def quoteScenario1 : Quote :=
  { unitPrice := 25000, extrasTotal := 0, lineSubtotal := 25000,
    discountAmount := 0, total := 25000,
    matchedRuleId := some "r3-small" }

/-- Claim C1 — fail-open cache: for every key, TTL and fetcher, if every
cache `get` and every `setex` call throws, both variants of the cache-aside
wrapper `getCached` still return exactly the value (or error) the underlying
fetcher produces on its invocation; no cache-path failure is propagated to
the caller as a request failure. -/
theorem getCached_fail_open {E V : Type} (getRes : Except Unit (Option V))
    (setRes : V → Except Unit Unit) (fetch : Nat → Except E V)
    (hget : getRes = .error ()) (_hset : ∀ v, setRes v = .error ()) :
    (getCached getRes setRes fetch).result = fetch 0 ∧
      (getCachedB getRes setRes fetch).result = fetch 0 ∧
      (getCached getRes setRes fetch).fetchCalls = 1 ∧
      (getCachedB getRes setRes fetch).fetchCalls = 1 := by
  subst hget
  exact ⟨rfl, rfl, rfl, rfl⟩

/-- Witness for C1 at a concrete instance: the cache is down, the fetcher
returns 7, and both variants hand 7 back to the caller. -/
theorem getCached_fail_open_witness :
    (getCached (E := Unit) (V := Nat) (.error ()) (fun _ => .error ())
        (fun _ => .ok 7)).result = .ok 7 ∧
      (getCachedB (E := Unit) (V := Nat) (.error ()) (fun _ => .error ())
        (fun _ => .ok 7)).result = .ok 7 ∧
      (getCached (E := Unit) (V := Nat) (.error ()) (fun _ => .error ())
        (fun _ => .ok 7)).fetchCalls = 1 ∧
      (getCachedB (E := Unit) (V := Nat) (.error ()) (fun _ => .error ())
        (fun _ => .ok 7)).fetchCalls = 1 :=
  getCached_fail_open (.error ()) (fun _ => .error ()) (fun _ => .ok 7) rfl
    (fun _ => rfl)

/-- Claim C6 — evaluation at the failing input: in the first variant of
`getCached` (src/lib/redis/client.ts lines 17-42), when the cache lookup
succeeds with a miss and the underlying fetcher throws, the outer catch block
re-invokes the fetcher instead of surfacing the first failure: the fetcher
runs twice within a single cache-aside call, and the caller sees the outcome
of the second invocation.  This contradicts both the claim and the source's
own comment on the catch block ("If Redis fails, fall back to fetcher"). -/
theorem getCached_fetcher_retry_eval :
    getCached (E := String) (V := Nat) (.ok none) (fun _ => .ok ())
        (fun n => if n = 0 then .error "store down" else .error "store down again")
      = { result := .error "store down again", fetchCalls := 2,
          wroteCache := false } :=
  rfl

/-- Claim C7 — counterexample: the claim says the computed-quote TTL class
`CACHE_TTL.CALCULATION` equals the medium value and the rule TTLs equal the
long value, but in `src/lib/redis/cache-keys.ts` `CALCULATION` is 600 s while
`MEDIUM` is 1800 s, and the pricing-rule TTL `PRICING` (1800 s) differs from
`LONG` (3600 s). -/
theorem cacheTTL_calculation_ne_medium :
    CACHE_TTL.CALCULATION = 600 ∧ CACHE_TTL.MEDIUM = 1800 ∧
      CACHE_TTL.CALCULATION ≠ CACHE_TTL.MEDIUM ∧
      CACHE_TTL.PRICING = 1800 ∧ CACHE_TTL.LONG = 3600 ∧
      CACHE_TTL.PRICING ≠ CACHE_TTL.LONG := by
  decide

/-- Claim C7 as amended: catalog, configuration, extra-item and discount-rule
TTLs equal the long class (3600 s); the pricing-rule TTL equals the medium
class (1800 s); and the computed-quote TTL `CALCULATION` is 600 s, strictly
between the short (300 s) and medium classes — shorter than every rule TTL. -/
theorem cacheTTL_policy_amended :
    CACHE_TTL.CATALOG = CACHE_TTL.LONG ∧ CACHE_TTL.CONFIG = CACHE_TTL.LONG ∧
      CACHE_TTL.EXTRAS = CACHE_TTL.LONG ∧
      CACHE_TTL.DISCOUNTS = CACHE_TTL.LONG ∧
      CACHE_TTL.PRICING = CACHE_TTL.MEDIUM ∧
      CACHE_TTL.CALCULATION = 600 ∧
      CACHE_TTL.SHORT < CACHE_TTL.CALCULATION ∧
      CACHE_TTL.CALCULATION < CACHE_TTL.MEDIUM := by
  decide

/-- Claim C9 — cache hit is terminal: whenever the cache lookup succeeds with
a present value, both variants of `getCached` return that value unchanged,
never invoke the underlying fetcher, and perform no cache write. -/
theorem getCached_hit_terminal {E V : Type} (getRes : Except Unit (Option V))
    (setRes : V → Except Unit Unit) (fetch : Nat → Except E V) (v : V)
    (hget : getRes = .ok (some v)) :
    getCached getRes setRes fetch
        = { result := .ok v, fetchCalls := 0, wroteCache := false } ∧
      getCachedB getRes setRes fetch
        = { result := .ok v, fetchCalls := 0, wroteCache := false } := by
  subst hget
  exact ⟨rfl, rfl⟩

/-- Witness for C9 at a concrete instance: a cached 42 is served directly. -/
theorem getCached_hit_terminal_witness :
    getCached (E := Unit) (V := Nat) (.ok (some 42)) (fun _ => .ok ())
        (fun _ => .ok 0)
        = { result := .ok 42, fetchCalls := 0, wroteCache := false } ∧
      getCachedB (E := Unit) (V := Nat) (.ok (some 42)) (fun _ => .ok ())
        (fun _ => .ok 0)
        = { result := .ok 42, fetchCalls := 0, wroteCache := false } :=
  getCached_hit_terminal (.ok (some 42)) (fun _ => .ok ()) (fun _ => .ok 0) 42
    rfl

/-- Claim C10 — null is indistinguishable from absence: for every key whose
stored value deserializes to JS `null`, the `redis.get` of the Upstash client
returns `null` exactly as for an absent key, so both variants of `getCached`
treat the lookup as a miss (they behave identically to the absent-key run)
and invoke the underlying fetcher at least once; a stored null is never
served from the cache. -/
theorem getCached_stored_null_is_miss {E V : Type}
    (store : String → Option (Option V)) (k : String)
    (setRes : V → Except Unit Unit) (fetch : Nat → Except E V)
    (hnull : store k = some none) :
    getCached (.ok (redisGetStored store k)) setRes fetch
        = getCached (.ok none) setRes fetch ∧
      getCachedB (.ok (redisGetStored store k)) setRes fetch
        = getCachedB (.ok none) setRes fetch ∧
      1 ≤ (getCached (.ok (redisGetStored store k)) setRes fetch).fetchCalls := by
  have h : redisGetStored store k = none := by
    simp [redisGetStored, hnull]
  rw [h]
  refine ⟨rfl, rfl, ?_⟩
  cases hf : fetch 0 with
  | error e => simp [getCached, hf]
  | ok d =>
    cases hs : setRes d with
    | error u => simp [getCached, hf, hs]
    | ok u => simp [getCached, hf, hs]

/-- Witness for C10 at a concrete instance: a store holding a JSON `null`
under the key `altar:x` behaves exactly like an empty store. -/
theorem getCached_stored_null_is_miss_witness :
    getCached (E := Unit) (V := Nat)
        (.ok (redisGetStored (fun k => if k = "altar:x" then some none else none)
          "altar:x"))
        (fun _ => .ok ()) (fun _ => .ok 3)
        = getCached (.ok none) (fun _ => .ok ()) (fun _ => .ok 3) ∧
      getCachedB (E := Unit) (V := Nat)
        (.ok (redisGetStored (fun k => if k = "altar:x" then some none else none)
          "altar:x"))
        (fun _ => .ok ()) (fun _ => .ok 3)
        = getCachedB (.ok none) (fun _ => .ok ()) (fun _ => .ok 3) ∧
      1 ≤ (getCached (E := Unit) (V := Nat)
        (.ok (redisGetStored (fun k => if k = "altar:x" then some none else none)
          "altar:x"))
        (fun _ => .ok ()) (fun _ => .ok 3)).fetchCalls :=
  getCached_stored_null_is_miss
    (fun k => if k = "altar:x" then some none else none) "altar:x"
    (fun _ => .ok ()) (fun _ => .ok 3) (by decide)

/-- Claim C8 — counterexample: the bulk-invalidation patterns defined in
`CACHE_KEYS.PATTERNS` contain no pattern matching the discount-rules key
`reglas_descuento:all`, and the quote pattern `precio:*` does not match the
pricing-rules list key `reglas_precio:all` either; so prefix-deleting every
defined namespace pattern leaves both rule keys cached, contradicting the
claimed coverage of the discount and pricing-rules namespaces. -/
theorem patterns_miss_discount_namespace :
    patternMatches PATTERN_ALL_ALTARES KEY_REGLAS_DESCUENTO = false ∧
      patternMatches PATTERN_ALL_CONFIGURACIONES KEY_REGLAS_DESCUENTO = false ∧
      patternMatches PATTERN_ALL_PRICING KEY_REGLAS_DESCUENTO = false ∧
      patternMatches PATTERN_ALL_EXTRAS KEY_REGLAS_DESCUENTO = false ∧
      patternMatches PATTERN_ALL_ALTARES KEY_REGLAS_PRECIO = false ∧
      patternMatches PATTERN_ALL_CONFIGURACIONES KEY_REGLAS_PRECIO = false ∧
      patternMatches PATTERN_ALL_PRICING KEY_REGLAS_PRECIO = false ∧
      patternMatches PATTERN_ALL_EXTRAS KEY_REGLAS_PRECIO = false := by
  decide

/-- Helper: a prefix-star pattern matches any key extending a string that the
pattern's literal part is a prefix of. -/
theorem patternMatches_prefix_append (pat head tail : String)
    (hstar : pat.data.getLast? = some '*')
    (hpre : pat.data.dropLast <+: head.data) :
    patternMatches pat (head ++ tail) = true := by
  unfold patternMatches
  rw [if_pos hstar]
  refine List.isPrefixOf_iff_prefix.mpr ?_
  rw [String.data_append]
  exact hpre.trans (List.prefix_append _ _)

/-- Claim C8 as amended: the defined bulk-invalidation patterns cover the
altar-catalog namespace, the configuration namespace, the extra-items
namespace and the entire quote-result namespace (`precio:*` matches
`precio:calc:<hash>` for every hash), but no defined pattern matches the
pricing-rules list key `reglas_precio:all` or the discount-rules key
`reglas_descuento:all`; invalidation through the defined patterns therefore
cannot remove those two rule-set keys. -/
theorem patterns_coverage_amended :
    (∀ hash : String,
        patternMatches PATTERN_ALL_PRICING (KEY_PRECIO_CALCULATION hash) = true) ∧
      (∀ tipo : String,
        patternMatches PATTERN_ALL_ALTARES (KEY_ALTARES_BY_TYPE tipo) = true) ∧
      (∀ tipo : String,
        patternMatches PATTERN_ALL_EXTRAS (KEY_ITEMS_EXTRA_BY_TYPE tipo) = true) ∧
      patternMatches PATTERN_ALL_ALTARES KEY_ALTARES_ALL = true ∧
      patternMatches PATTERN_ALL_CONFIGURACIONES KEY_CONFIGURACIONES_ALL = true ∧
      patternMatches PATTERN_ALL_EXTRAS KEY_ITEMS_EXTRA = true ∧
      patternMatches PATTERN_ALL_PRICING KEY_REGLAS_PRECIO = false ∧
      patternMatches PATTERN_ALL_PRICING KEY_REGLAS_DESCUENTO = false ∧
      patternMatches PATTERN_ALL_ALTARES KEY_REGLAS_DESCUENTO = false ∧
      patternMatches PATTERN_ALL_CONFIGURACIONES KEY_REGLAS_DESCUENTO = false ∧
      patternMatches PATTERN_ALL_EXTRAS KEY_REGLAS_DESCUENTO = false := by
  refine ⟨?_, ?_, ?_, by decide, by decide, by decide, by decide, by decide,
    by decide, by decide, by decide⟩
  · intro hash
    exact patternMatches_prefix_append PATTERN_ALL_PRICING "precio:calc:" hash
      (by decide) (by decide)
  · intro tipo
    exact patternMatches_prefix_append PATTERN_ALL_ALTARES "altares:tipo:" tipo
      (by decide) (by decide)
  · intro tipo
    exact patternMatches_prefix_append PATTERN_ALL_EXTRAS "items_extra:tipo:"
      tipo (by decide) (by decide)

/-- Helper: two lists of extras that are permutations of each other, both
sorted by `itemId`, and whose `itemId`s are pairwise distinct, are equal. -/
theorem sorted_perm_eq_of_nodup_keys :
    ∀ {l₁ l₂ : List ExtraSel}, l₁.Perm l₂ → l₁.Sorted extraLe →
      l₂.Sorted extraLe → (l₁.map ExtraSel.itemId).Nodup → l₁ = l₂ := by
  intro l₁
  induction l₁ with
  | nil =>
    intro l₂ hp _ _ _
    exact hp.nil_eq
  | cons a t ih =>
    intro l₂ hp hs₁ hs₂ hnd
    cases l₂ with
    | nil => exact hp.eq_nil
    | cons b t₂ =>
      have hab : a = b := by
        have hbmem : b ∈ a :: t := hp.symm.subset (List.mem_cons_self b t₂)
        rcases List.mem_cons.mp hbmem with hba | hbt
        · exact hba.symm
        · have hamem : a ∈ b :: t₂ := hp.subset (List.mem_cons_self a t)
          rcases List.mem_cons.mp hamem with heq | hat
          · exact heq
          · have h₁ : a.itemId.data ≤ b.itemId.data :=
              (List.sorted_cons.mp hs₁).1 b hbt
            have h₂ : b.itemId.data ≤ a.itemId.data :=
              (List.sorted_cons.mp hs₂).1 a hat
            have hkey : a.itemId = b.itemId := String.ext (le_antisymm h₁ h₂)
            exfalso
            have hmem : a.itemId ∈ t.map ExtraSel.itemId := by
              rw [hkey]
              exact List.mem_map_of_mem _ hbt
            exact (List.nodup_cons.mp (by simpa using hnd)).1 hmem
      subst hab
      have heq : t = t₂ :=
        ih hp.cons_inv hs₁.of_cons hs₂.of_cons
          (List.nodup_cons.mp (by simpa using hnd)).2
      rw [heq]

/-- Claim C2 — counterexample: the extras lists `[(velaA,1), (velaA,2)]` and
`[(velaA,2), (velaA,1)]` are permutations of each other and all other
parameters agree, yet `generatePriceCalcHash` produces different keys: the
source sorts only by `itemId`, and a stable sort leaves entries with equal
`itemId` in their original relative order, so the quantities are joined in
different orders. -/
theorem generatePriceCalcHash_perm_counterexample :
    ([⟨"velaA", 1⟩, ⟨"velaA", 2⟩] : List ExtraSel).Perm
        [⟨"velaA", 2⟩, ⟨"velaA", 1⟩] ∧
      generatePriceCalcHash
          { grosorId := "g3", alturaId := "a40", anchuraId := "w25",
            pintado := false, extras := some [⟨"velaA", 1⟩, ⟨"velaA", 2⟩] }
        ≠ generatePriceCalcHash
          { grosorId := "g3", alturaId := "a40", anchuraId := "w25",
            pintado := false, extras := some [⟨"velaA", 2⟩, ⟨"velaA", 1⟩] } := by
  decide

/-- Claim C2 as amended: for every two extras lists that are permutations of
each other and whose `itemId`s are pairwise distinct (with `grosorId`,
`alturaId`, `anchuraId` and the paint flag held fixed),
`generatePriceCalcHash` returns the same cache-key string. -/
theorem generatePriceCalcHash_perm_of_nodup (p₁ p₂ : PriceCalcParams)
    (l₁ l₂ : List ExtraSel) (hg : p₁.grosorId = p₂.grosorId)
    (ha : p₁.alturaId = p₂.alturaId) (hw : p₁.anchuraId = p₂.anchuraId)
    (hp : p₁.pintado = p₂.pintado) (he₁ : p₁.extras = some l₁)
    (he₂ : p₂.extras = some l₂) (hperm : l₁.Perm l₂)
    (hnd : (l₁.map ExtraSel.itemId).Nodup) :
    generatePriceCalcHash p₁ = generatePriceCalcHash p₂ := by
  have hsorted : List.insertionSort extraLe l₁ = List.insertionSort extraLe l₂ := by
    apply sorted_perm_eq_of_nodup_keys
    · exact (List.perm_insertionSort _ _).trans
        (hperm.trans (List.perm_insertionSort _ _).symm)
    · exact List.sorted_insertionSort extraLe l₁
    · exact List.sorted_insertionSort extraLe l₂
    · exact (((List.perm_insertionSort extraLe l₁).map
        ExtraSel.itemId).nodup_iff).mpr hnd
  simp [generatePriceCalcHash, he₁, he₂, hg, ha, hw, hp, hsorted]

/-- Witness for the amended C2 at a concrete instance: the extras
`[(vela,2), (cruz,1)]` and `[(cruz,1), (vela,2)]` hash identically. -/
theorem generatePriceCalcHash_perm_of_nodup_witness :
    generatePriceCalcHash paramsExtrasBA = generatePriceCalcHash paramsExtrasAB :=
  generatePriceCalcHash_perm_of_nodup paramsExtrasBA paramsExtrasAB
    [⟨"vela", 2⟩, ⟨"cruz", 1⟩] [⟨"cruz", 1⟩, ⟨"vela", 2⟩] rfl rfl rfl rfl rfl
    rfl (by decide) (by decide)

/-- Claim C3 — discount tier selection: for every tier set, item count and
subtotal, when `applyDiscount` returns a tier it is an active tier of the set
with `minQuantity ≤ itemCount` whose `minQuantity` is largest among the
qualifying tiers, and the discount amount is
`round(subtotal × percentage / 100)` at currency precision; when no active
tier has `minQuantity ≤ itemCount`, the result is no tier and a discount of
0. -/
theorem applyDiscount_spec (tiers : List DiscountTier) (c s : Nat) :
    (∀ t, (applyDiscount tiers c s).1 = some t →
        t ∈ tiers ∧ t.activo = true ∧ t.cantidadMinima ≤ c ∧
          (∀ t' ∈ tiers, t'.activo = true → t'.cantidadMinima ≤ c →
            t'.cantidadMinima ≤ t.cantidadMinima) ∧
          (applyDiscount tiers c s).2 = roundHalfUp (s * t.porcentaje) 10000) ∧
      ((∀ t' ∈ tiers, t'.activo = true → c < t'.cantidadMinima) →
        applyDiscount tiers c s = (none, 0)) := by
  constructor
  · intro t hsome
    unfold applyDiscount at hsome ⊢
    cases hq : (tiers.filter
        (fun t => t.activo && decide (t.cantidadMinima ≤ c))).argmax
        (fun t => t.cantidadMinima) with
    | none =>
      rw [hq] at hsome
      cases hsome
    | some t₀ =>
      rw [hq] at hsome
      have ht : t₀ = t := by simpa using hsome
      subst ht
      have hmem : t₀ ∈ tiers.filter
          (fun t => t.activo && decide (t.cantidadMinima ≤ c)) :=
        List.argmax_mem (Option.mem_def.mpr hq)
      obtain ⟨hin, hcond⟩ := List.mem_filter.mp hmem
      obtain ⟨hact, hle⟩ := by
        simpa [Bool.and_eq_true, decide_eq_true_iff] using hcond
      refine ⟨hin, hact, hle, ?_, rfl⟩
      intro t' ht' hact' hle'
      have hmem' : t' ∈ tiers.filter
          (fun t => t.activo && decide (t.cantidadMinima ≤ c)) :=
        List.mem_filter.mpr ⟨ht', by simp [hact', hle']⟩
      exact Nat.not_lt.mp
        (List.not_lt_of_mem_argmax hmem' (Option.mem_def.mpr hq))
  · intro hnone
    unfold applyDiscount
    have hfil : tiers.filter
        (fun t => t.activo && decide (t.cantidadMinima ≤ c)) = [] := by
      refine List.filter_eq_nil_iff.mpr ?_
      intro t ht
      simp only [Bool.and_eq_true, decide_eq_true_iff, not_and]
      intro hact hle
      exact absurd hle (Nat.not_le.mpr (hnone t ht hact))
    rw [hfil]
    rfl

/-- Witness for C3 at a concrete instance (spec scenario 4): with the seed
tiers (10 % from 5 units, 15 % from 10 units) and an order of 6 items, the
5-unit tier applies and the discount on a 1500.00 subtotal is
`round(150000 × 1000 / 10000)` centavos. -/
theorem applyDiscount_spec_witness :
    seedTier5 ∈ seedTiers ∧ seedTier5.activo = true ∧
      seedTier5.cantidadMinima ≤ 6 ∧
      (∀ t' ∈ seedTiers, t'.activo = true → t'.cantidadMinima ≤ 6 →
        t'.cantidadMinima ≤ seedTier5.cantidadMinima) ∧
      (applyDiscount seedTiers 6 150000).2
        = roundHalfUp (150000 * seedTier5.porcentaje) 10000 :=
  (applyDiscount_spec seedTiers 6 150000).1 seedTier5 (by decide)

/-- Claim C4 — price-rule tie-break: whenever `resolve` selects a rule, that
rule matches the request point and, among all matching rules of the rule set,
it has minimal band area `(heightMax−heightMin) × (widthMax−widthMin)`, with
ties on area broken towards the lexicographically smallest identifier;
moreover, on rule sets with pairwise distinct identifiers the selection is
independent of storage order (and, `resolve` being a pure function, identical
across repeated calls). -/
theorem resolve_spec :
    (∀ (rules : List PricingRule) (g : String) (hgt wid : Int)
        (r : PricingRule), resolve rules g hgt wid = some r →
        r ∈ rules ∧ ruleMatches r g hgt wid = true ∧
          ∀ r' ∈ rules, ruleMatches r' g hgt wid = true →
            bandArea r < bandArea r' ∨
              (bandArea r = bandArea r' ∧ r.id ≤ r'.id)) ∧
      (∀ (rules₁ rules₂ : List PricingRule) (g : String) (hgt wid : Int),
        rules₁.Perm rules₂ → (rules₁.map PricingRule.id).Nodup →
          resolve rules₁ g hgt wid = resolve rules₂ g hgt wid) := by
  constructor
  · intro rules g hgt wid r hr
    unfold resolve at hr
    have hmem : r ∈ rules.filter (fun r => ruleMatches r g hgt wid) :=
      List.argmin_mem (Option.mem_def.mpr hr)
    obtain ⟨hin, hmatch⟩ := List.mem_filter.mp hmem
    refine ⟨hin, hmatch, ?_⟩
    intro r' hr' hmatch'
    have hmem' : r' ∈ rules.filter (fun r => ruleMatches r g hgt wid) :=
      List.mem_filter.mpr ⟨hr', hmatch'⟩
    have hk : ruleKey r ≤ ruleKey r' :=
      le_of_not_lt (List.not_lt_of_mem_argmin hmem' (Option.mem_def.mpr hr))
    rcases (Prod.Lex.le_iff (bandArea r, r.id.data)
        (bandArea r', r'.id.data)).mp hk with h | ⟨h₁, h₂⟩
    · exact Or.inl h
    · refine Or.inr ⟨h₁, ?_⟩
      rw [String.le_iff_toList_le]
      exact h₂
  · intro rules₁ rules₂ g hgt wid hperm hnd
    unfold resolve
    have hpm : (rules₁.filter (fun r => ruleMatches r g hgt wid)).Perm
        (rules₂.filter (fun r => ruleMatches r g hgt wid)) := hperm.filter _
    cases h₁ : (rules₁.filter (fun r => ruleMatches r g hgt wid)).argmin
        ruleKey with
    | none =>
      have hnil : rules₁.filter (fun r => ruleMatches r g hgt wid) = [] :=
        List.argmin_eq_none.mp h₁
      have hnil₂ : rules₂.filter (fun r => ruleMatches r g hgt wid) = [] := by
        rw [hnil] at hpm
        exact hpm.symm.eq_nil
      rw [List.argmin_eq_none.mpr hnil₂]
    | some m₁ =>
      cases h₂ : (rules₂.filter (fun r => ruleMatches r g hgt wid)).argmin
          ruleKey with
      | none =>
        exfalso
        have hnil₂ : rules₂.filter (fun r => ruleMatches r g hgt wid) = [] :=
          List.argmin_eq_none.mp h₂
        have hnil : rules₁.filter (fun r => ruleMatches r g hgt wid) = [] := by
          rw [hnil₂] at hpm
          exact hpm.eq_nil
        have hcontra : (rules₁.filter
            (fun r => ruleMatches r g hgt wid)).argmin ruleKey = none :=
          List.argmin_eq_none.mpr hnil
        rw [h₁] at hcontra
        cases hcontra
      | some m₂ =>
        have hm₁ : m₁ ∈ rules₁.filter (fun r => ruleMatches r g hgt wid) :=
          List.argmin_mem (Option.mem_def.mpr h₁)
        have hm₂ : m₂ ∈ rules₂.filter (fun r => ruleMatches r g hgt wid) :=
          List.argmin_mem (Option.mem_def.mpr h₂)
        have hm₂₁ : m₂ ∈ rules₁.filter (fun r => ruleMatches r g hgt wid) :=
          hpm.symm.subset hm₂
        have hm₁₂ : m₁ ∈ rules₂.filter (fun r => ruleMatches r g hgt wid) :=
          hpm.subset hm₁
        have hk₁ : ruleKey m₁ ≤ ruleKey m₂ :=
          le_of_not_lt (List.not_lt_of_mem_argmin hm₂₁ (Option.mem_def.mpr h₁))
        have hk₂ : ruleKey m₂ ≤ ruleKey m₁ :=
          le_of_not_lt (List.not_lt_of_mem_argmin hm₁₂ (Option.mem_def.mpr h₂))
        have hpair : (bandArea m₁, m₁.id.data) = (bandArea m₂, m₂.id.data) :=
          congrArg ofLex (le_antisymm hk₁ hk₂)
        have hid : m₁.id = m₂.id := String.ext (congrArg Prod.snd hpair)
        have hm : m₁ = m₂ :=
          List.inj_on_of_nodup_map hnd (List.mem_of_mem_filter hm₁)
            (List.mem_of_mem_filter hm₂₁) hid
        rw [hm]

/-- Witness for C4 at a concrete instance: at the point (40 cm, 25 cm) both
the artificial wide rule and the small seed band match; `resolve` picks the
narrower seed band, and the choice is the same for both storage orders of the
two-rule set. -/
theorem resolve_spec_witness :
    (seedRule3mmSmall ∈ [overlapRuleWide, seedRule3mmSmall] ∧
        ruleMatches seedRule3mmSmall "g3" 4000 2500 = true ∧
        ∀ r' ∈ [overlapRuleWide, seedRule3mmSmall],
          ruleMatches r' "g3" 4000 2500 = true →
            bandArea seedRule3mmSmall < bandArea r' ∨
              (bandArea seedRule3mmSmall = bandArea r' ∧
                seedRule3mmSmall.id ≤ r'.id)) ∧
      resolve [overlapRuleWide, seedRule3mmSmall] "g3" 4000 2500
        = resolve [seedRule3mmSmall, overlapRuleWide] "g3" 4000 2500 :=
  ⟨resolve_spec.1 [overlapRuleWide, seedRule3mmSmall] "g3" 4000 2500
      seedRule3mmSmall (by decide),
    resolve_spec.2 [overlapRuleWide, seedRule3mmSmall]
      [seedRule3mmSmall, overlapRuleWide] "g3" 4000 2500 (by decide)
      (by decide)⟩

/-- Helper: when every tier's percentage is at most 100 % (10000 basis
points, the bound enforced by the schema's `check_discount_percentage`), the
discount amount never exceeds the subtotal. -/
theorem applyDiscount_le (tiers : List DiscountTier) (c s : Nat)
    (hpct : ∀ t ∈ tiers, t.porcentaje ≤ 10000) :
    (applyDiscount tiers c s).2 ≤ s := by
  unfold applyDiscount
  cases hq : (tiers.filter
      (fun t => t.activo && decide (t.cantidadMinima ≤ c))).argmax
      (fun t => t.cantidadMinima) with
  | none => exact Nat.zero_le s
  | some t =>
    have ht : t ∈ tiers :=
      List.mem_of_mem_filter (List.argmax_mem (Option.mem_def.mpr hq))
    have hp : t.porcentaje ≤ 10000 := hpct t ht
    show roundHalfUp (s * t.porcentaje) 10000 ≤ s
    unfold roundHalfUp
    have hden : (2 : Nat) * 10000 = 20000 := by norm_num
    rw [hden]
    have h1 : 2 * (s * t.porcentaje) + 10000 ≤ 10000 + 20000 * s := by
      have hm : s * t.porcentaje ≤ s * 10000 := Nat.mul_le_mul_left s hp
      omega
    calc (2 * (s * t.porcentaje) + 10000) / 20000
        ≤ (10000 + 20000 * s) / 20000 := Nat.div_le_div_right h1
      _ = 10000 / 20000 + s := Nat.add_mul_div_left 10000 s (by norm_num)
      _ = s := by norm_num

/-- Claim C5 — quote total invariant: every quote produced by the Quote
Calculator under schema-valid tiers (percentages at most 100 %) satisfies
`total = lineSubtotal − discountAmount` exactly and `total ≥ 0`; and every
order row admitted by the `pedidos` CHECK constraints likewise satisfies
`total = subtotal − descuento` and `total ≥ 0`. -/
theorem quote_total_invariant :
    (∀ (rules : List PricingRule) (tiers : List DiscountTier) (g : String)
        (hgt wid : Int) (painted : Bool) (quantity : Nat)
        (extras : List (Nat × Nat)) (orderItemCount : Nat) (q : Quote),
        (∀ t ∈ tiers, t.porcentaje ≤ 10000) →
        computeQuote rules tiers g hgt wid painted quantity extras
            orderItemCount = some q →
        q.total = (q.lineSubtotal : Int) - (q.discountAmount : Int) ∧
          0 ≤ q.total) ∧
      (∀ p : Pedido, pedidoChecks p = true →
        p.total = p.subtotal - p.descuento ∧ 0 ≤ p.total) := by
  constructor
  · intro rules tiers g hgt wid painted quantity extras orderItemCount q hpct hq
    unfold computeQuote at hq
    by_cases hqty : quantity < 1
    · rw [if_pos hqty] at hq
      cases hq
    · rw [if_neg hqty] at hq
      cases hr : resolve rules g hgt wid with
      | none =>
        rw [hr] at hq
        cases hq
      | some r =>
        rw [hr] at hq
        have hquote : quoteOf r tiers painted quantity extras orderItemCount
            = q := by simpa using hq
        subst hquote
        refine ⟨rfl, ?_⟩
        have hd : (applyDiscount tiers orderItemCount
            ((quoteUnitPrice r painted + quoteExtrasTotal extras)
              * quantity)).2
            ≤ (quoteUnitPrice r painted + quoteExtrasTotal extras)
              * quantity :=
          applyDiscount_le tiers orderItemCount _ hpct
        show (0 : Int)
            ≤ (((quoteUnitPrice r painted + quoteExtrasTotal extras)
                * quantity : Nat) : Int)
              - ((applyDiscount tiers orderItemCount
                  ((quoteUnitPrice r painted + quoteExtrasTotal extras)
                    * quantity)).2 : Int)
        omega
  · intro p hcheck
    unfold pedidoChecks at hcheck
    simp only [Bool.and_eq_true, decide_eq_true_iff] at hcheck
    exact ⟨hcheck.2, hcheck.1.1.2⟩

/-- Witness for C5 at a concrete instance (spec scenario 1): 3 mm thickness,
40 cm × 25 cm, unpainted, quantity 1, no extras, against the 3 mm seed rules
and the seed tiers; the quote totals 250.00 and satisfies the invariant. -/
theorem quote_total_invariant_witness :
    (computeQuote seedRules3mm seedTiers "g3" 4000 2500 false 1 [] 1
        = some quoteScenario1) ∧
      (quoteScenario1.total
          = (quoteScenario1.lineSubtotal : Int)
            - (quoteScenario1.discountAmount : Int) ∧
        0 ≤ quoteScenario1.total) ∧
      (pedidoChecks { subtotal := 25000, descuento := 0, total := 25000 }
          = true ∧
        ({ subtotal := 25000, descuento := 0, total := 25000 } : Pedido).total
            = 25000 - 0 ∧
          0 ≤ ({ subtotal := 25000, descuento := 0, total := 25000 }
            : Pedido).total) :=
  ⟨by decide,
    quote_total_invariant.1 seedRules3mm seedTiers "g3" 4000 2500 false 1 [] 1
      quoteScenario1 (by decide) (by decide),
    by decide,
    by
      have h := quote_total_invariant.2
        { subtotal := 25000, descuento := 0, total := 25000 } (by decide)
      exact ⟨h.1, h.2⟩⟩

end Altares
